import Mathlib

/-!
Shallow embedding of the live-tracking server's session/analytics pipeline
(`src/services/DatabaseService.js`, `src/models/User.js`, `src/app.js`, and the
client-side pure `calculateDistance` helper).

Numbers handled by JavaScript are modelled as exact rationals (`ℚ`) — the
analytics arithmetic (`+1`, `* 3.6`, comparisons) is exact at these scales —
and timestamps as integers of milliseconds.  Strings are modelled as `List Char`
so that the substring tests of `parseUserAgent` are executable and decidable.
Only the success path of the persistence layer is modelled (the
`isConnected === false` short-circuits of `DatabaseService` are no-ops that
skip every write, so every claim below concerns the connected behaviour).
-/

namespace LiveTracking

/-- Payload of a `locationUpdate` event, as destructured by
`DatabaseService.logLocationData` / `updateUserAnalytics`
(`latitude`, `longitude` required; `accuracy`, `altitude`, `speed` optional).
`none` models a JavaScript `undefined` field. -/
structure LocationData where
  latitude : ℚ
  longitude : ℚ
  accuracy : Option ℚ := none
  altitude : Option ℚ := none
  speed : Option ℚ := none
  timestamp : ℤ := 0
deriving DecidableEq, Repr

/-- A latitude/longitude pair as stored in `startLocation` / `endLocation`
of the `userAnalyticsSchema`. -/
structure Coord where
  latitude : ℚ
  longitude : ℚ
deriving DecidableEq, Repr

/-- The fixed, closed flag set of `userAnalyticsSchema.featuresUsed`
(`src/models/User.js` lines 111–124). -/
structure FeaturesUsed where
  satelliteView : Bool := false
  trailMode : Bool := false
  speedMode : Bool := false
deriving DecidableEq, Repr

/-- One document of the `UserAnalytics` collection
(`userAnalyticsSchema`, `src/models/User.js` lines 84–137). -/
structure UserAnalytics where
  sessionId : String
  totalLocationUpdates : ℕ
  totalDistance : ℚ
  maxSpeed : ℚ
  averageSpeed : ℚ
  trackingDuration : ℚ
  featuresUsed : FeaturesUsed
  startLocation : Option Coord
  endLocation : Option Coord
deriving DecidableEq, Repr

/-- Model of `DatabaseService.createUserAnalytics` (lines 161–176): the zeroed
analytics document created together with a fresh session.  The feature flags
and the start/end locations take their schema defaults. -/
def createUserAnalytics (sessionId : String) : UserAnalytics :=
  { sessionId := sessionId
    totalLocationUpdates := 0
    totalDistance := 0
    maxSpeed := 0
    averageSpeed := 0
    trackingDuration := 0
    featuresUsed := {}
    startLocation := none
    endLocation := none }

/-- JavaScript truthiness of the optional numeric `locationData.speed`:
`undefined` and `0` are falsy, every other (non-NaN) number is truthy. -/
def speedTruthy : Option ℚ → Bool
  | none => false
  | some v => v ≠ 0

/-- Model of `DatabaseService.updateUserAnalytics` (lines 179–210), one update applied
to one analytics document.  Mutation order of the source is kept: the counter
is incremented first; the max-speed test `locationData.speed &&
locationData.speed > analytics.maxSpeed` compares the *raw* reported speed
(m/s) against the *stored* maximum (already in km/h) and, when it passes,
stores `speed * 3.6`; `startLocation` is set when the incremented counter
equals 1; `endLocation` is always overwritten. -/
def updateUserAnalytics (analytics : UserAnalytics) (loc : LocationData) :
    UserAnalytics :=
  let a1 := { analytics with
              totalLocationUpdates := analytics.totalLocationUpdates + 1 }
  let a2 :=
    match loc.speed with
    | some s => if s ≠ 0 ∧ s > a1.maxSpeed
                then { a1 with maxSpeed := s * (36/10) } else a1
    | none => a1
  let a3 := if a2.totalLocationUpdates = 1
            then { a2 with startLocation := some ⟨loc.latitude, loc.longitude⟩ }
            else a2
  { a3 with endLocation := some ⟨loc.latitude, loc.longitude⟩ }

/-- Applying a whole sequence of location updates to an analytics document,
in arrival order. -/
def applyUpdates (analytics : UserAnalytics) (locs : List LocationData) :
    UserAnalytics :=
  locs.foldl updateUserAnalytics analytics

/-- The max-speed recurrence actually implemented by `updateUserAnalytics`:
the stored value (km/h) is replaced by `s * 3.6` exactly when the raw `s`
(m/s) is truthy and exceeds the stored value. -/
def maxSpeedStep (m : ℚ) (sp : Option ℚ) : ℚ :=
  match sp with
  | some s => if s ≠ 0 ∧ s > m then s * (36/10) else m
  | none => m

/-- Test that `pat` occurs at the very start of the second list (helper for the
JavaScript `String.prototype.includes` model). -/
def beginsWith : List Char → List Char → Bool
  | [], _ => true
  | _ :: _, [] => false
  | c :: cs, d :: ds => c == d && beginsWith cs ds

/-- JavaScript `userAgent.includes(pat)`: `pat` occurs as a contiguous
substring of the second list. -/
def containsSeq (pat : List Char) : List Char → Bool
  | [] => beginsWith pat []
  | d :: ds => beginsWith pat (d :: ds) || containsSeq pat ds

/-- ASCII lower-casing of a character list, modelling the `/i` flag of the
mobile-detection regular expression. -/
def lowerStr (s : List Char) : List Char := s.map Char.toLower

/-- The test `/Mobile|Android|iPhone|iPad/i.test(userAgent)` of
`DatabaseService.parseUserAgent` (line 291): case-insensitive substring
search for any of the four markers. -/
def mobileTest (ua : List Char) : Bool :=
  containsSeq (lowerStr "Mobile".toList) (lowerStr ua) ||
  containsSeq (lowerStr "Android".toList) (lowerStr ua) ||
  containsSeq (lowerStr "iPhone".toList) (lowerStr ua) ||
  containsSeq (lowerStr "iPad".toList) (lowerStr ua)

/-- The object returned by `parseUserAgent` for a truthy identity string. -/
structure DeviceInfo where
  browser : String
  platform : String
  mobile : Bool
  userAgent : List Char
deriving DecidableEq, Repr

/-- Model of `DatabaseService.parseUserAgent` (lines 288–312).  A falsy (absent or
empty) identity string yields the empty object, modelled as `none`;
otherwise browser and platform are chosen by first-match substring chains
with fall-back `"Unknown"`, and the identity string is echoed back truncated
to its first 200 characters. -/
def parseUserAgent (userAgent : List Char) : Option DeviceInfo :=
  if userAgent = [] then none
  else
    let inc := fun (pat : String) => containsSeq pat.toList userAgent
    let mobile := mobileTest userAgent
    let browser :=
      if inc "Chrome" then "Chrome"
      else if inc "Firefox" then "Firefox"
      else if inc "Safari" && !(inc "Chrome") then "Safari"
      else if inc "Edge" then "Edge"
      else "Unknown"
    let platform :=
      if inc "Windows" then "Windows"
      else if inc "Mac" then "macOS"
      else if inc "Linux" then "Linux"
      else if inc "Android" then "Android"
      else if inc "iPhone" || inc "iPad" then "iOS"
      else "Unknown"
    some { browser := browser, platform := platform, mobile := mobile,
           userAgent := userAgent.take 200 }

/-- Environmental snapshot persisted with a location record
(`locationTrackingSchema.environmental`, `src/models/User.js` lines 59–67);
every field is optional in the schema. -/
structure EnvData where
  temperature : Option ℚ := none
  humidity : Option ℚ := none
  windSpeed : Option ℚ := none
  visibility : Option ℚ := none
  airQuality : Option String := none
  pressure : Option ℚ := none
  uvIndex : Option ℚ := none
deriving DecidableEq, Repr

/-- One document of the `UserSession` collection (`userSessionSchema`,
`src/models/User.js` lines 4–36).  Timestamps are integers of
milliseconds since the epoch, as JavaScript `Date` arithmetic sees them. -/
structure SessionRec where
  sessionId : String
  socketId : String
  userAgent : List Char
  ipAddress : String
  deviceInfo : Option DeviceInfo
  connectionTime : ℤ
  disconnectionTime : Option ℤ := none
  sessionDuration : Option ℤ := none
  isActive : Bool
deriving DecidableEq, Repr

/-- One document of the `LocationTracking` collection
(`locationTrackingSchema`).  `timestamp` mirrors
`new Date(locationData.timestamp)`. -/
structure LocationRec where
  sessionId : String
  socketId : String
  coordinates : LocationData
  environmental : EnvData
  timestamp : ℤ
deriving DecidableEq, Repr

/-- The three persisted collections of the document store, in insertion
order. -/
structure DBState where
  sessions : List SessionRec
  analytics : List UserAnalytics
  locations : List LocationRec
deriving DecidableEq, Repr

def emptyState : DBState := ⟨[], [], []⟩

/-- Model of `UserSession.findOne({ socketId, isActive: true })`: the first stored
session that matches the channel identifier and is still active. -/
def findActiveSession (xs : List SessionRec) (socketId : String) :
    Option SessionRec :=
  xs.find? (fun s => s.socketId == socketId && s.isActive)

/-- Model of `DatabaseService.createUserSession` (lines 56–90) on the success path:
stores a new active session (device attributes parsed from the identity
string, connection time = now) and synchronously creates its paired, zeroed
analytics document.  The generated `session_${Date.now()}_${random}`
identifier is abstracted as the `sessionId` parameter. -/
def createUserSession (sessionId socketId : String) (userAgent : List Char)
    (ipAddress : String) (now : ℤ) (st : DBState) : DBState :=
  { st with
    sessions := st.sessions ++
      [{ sessionId := sessionId, socketId := socketId,
         userAgent := userAgent, ipAddress := ipAddress,
         deviceInfo := parseUserAgent userAgent, connectionTime := now,
         disconnectionTime := none, sessionDuration := none,
         isActive := true }]
    analytics := st.analytics ++ [createUserAnalytics sessionId] }

/-- The single write of `endUserSession` (lines 106–110) applied to the
found session document: disconnection time now, duration
`Math.floor((now - connectionTime) / 1000)` (whole seconds, hence `fdiv` by
1000 on milliseconds), active := false. -/
def closeSessionRec (now : ℤ) (s : SessionRec) : SessionRec :=
  { s with disconnectionTime := some now,
           sessionDuration := some (Int.fdiv (now - s.connectionTime) 1000),
           isActive := false }

/-- Model of `UserSession.findByIdAndUpdate`: rewrite the (unique, by the schema's
`sessionId` index) matching document with `f`, leaving all others alone. -/
def saveSessionById (xs : List SessionRec) (sessionId : String)
    (f : SessionRec → SessionRec) : List SessionRec :=
  xs.map (fun s => if s.sessionId == sessionId then f s else s)

/-- Model of `DatabaseService.endUserSession` (lines 93–118): update the active
session found for the channel, or do nothing at all when none exists. -/
def endUserSession (socketId : String) (now : ℤ) (st : DBState) : DBState :=
  match findActiveSession st.sessions socketId with
  | none => st
  | some session =>
      let updated :=
        saveSessionById st.sessions session.sessionId (closeSessionRec now)
      { st with sessions := updated }

/-- Model of `UserAnalytics.findOne({ sessionId })` followed by a mutation and
`save()`: rewrite the (unique) matching analytics document with `f`; when no
document matches this is the code's `if (!analytics) return` no-op. -/
def saveAnalyticsById (xs : List UserAnalytics) (sessionId : String)
    (f : UserAnalytics → UserAnalytics) : List UserAnalytics :=
  xs.map (fun a => if a.sessionId == sessionId then f a else a)

/-- Model of `DatabaseService.logLocationData` (lines 121–158): requires an active
session for the channel identifier — otherwise the update is dropped with
only a warning — and on success appends a `LocationTracking` document and
applies `updateUserAnalytics` to the session's analytics. -/
def logLocationData (socketId : String) (loc : LocationData) (env : EnvData)
    (st : DBState) : DBState :=
  match findActiveSession st.sessions socketId with
  | none => st
  | some session =>
      { st with
        locations := st.locations ++
          [{ sessionId := session.sessionId, socketId := socketId,
             coordinates := loc, environmental := env,
             timestamp := loc.timestamp }]
        analytics := saveAnalyticsById st.analytics session.sessionId
          (fun a => updateUserAnalytics a loc) }

/-- The effect of `analytics.featuresUsed[feature] = true` (line 229) on the
persisted document: `userAnalyticsSchema.featuresUsed` is a fixed, closed
set of three flags and mongoose schemas are strict by default, so an
assignment to any other key is dropped on `save()` and the stored flags are
unchanged. -/
def setFeature (f : FeaturesUsed) (feature : String) : FeaturesUsed :=
  if feature == "satelliteView" then { f with satelliteView := true }
  else if feature == "trailMode" then { f with trailMode := true }
  else if feature == "speedMode" then { f with speedMode := true }
  else f

/-- Model of `DatabaseService.logFeatureUsage` (lines 213–236): find the active
session for the channel, then its analytics document, and set the named
flag; a missing session or analytics document makes it a no-op. -/
def logFeatureUsage (socketId feature : String) (st : DBState) : DBState :=
  match findActiveSession st.sessions socketId with
  | none => st
  | some session =>
      let g := fun a : UserAnalytics =>
        { a with featuresUsed := setFeature a.featuresUsed feature }
      { st with analytics :=
          saveAnalyticsById st.analytics session.sessionId g }

/-- The operations a connected client can drive against the store, as
dispatched by the socket handlers in `src/app.js`. -/
inductive Op where
  | openSession (sessionId socketId : String) (userAgent : List Char)
      (ipAddress : String) (now : ℤ)
  | closeSession (socketId : String) (now : ℤ)
  | recordLocation (socketId : String) (loc : LocationData) (env : EnvData)
  | featureToggle (socketId feature : String)

def applyOp (st : DBState) : Op → DBState
  | .openSession sessionId socketId ua ip now =>
      createUserSession sessionId socketId ua ip now st
  | .closeSession socketId now => endUserSession socketId now st
  | .recordLocation socketId loc env => logLocationData socketId loc env st
  | .featureToggle socketId feature => logFeatureUsage socketId feature st

/-- Run a sequence of operations against the initially empty store. -/
def runOps (ops : List Op) : DBState := ops.foldl applyOp emptyState

/-- A `UserSession` document with the given identifier exists. -/
def hasSession (st : DBState) (sid : String) : Prop :=
  ∃ s ∈ st.sessions, s.sessionId = sid

/-- A `UserAnalytics` document with the given identifier exists. -/
def hasAnalytics (st : DBState) (sid : String) : Prop :=
  ∃ a ∈ st.analytics, a.sessionId = sid

/-- A one-session store (channel `"sockA"`, session `"s1"`, opened at time
0) used to exercise the lifecycle operations on concrete inputs. -/
def sampleState : DBState :=
  createUserSession "s1" "sockA" [] "ip" 0 emptyState

/-- JavaScript `Math.round` on the finite, non-NaN values handled here:
round half away from zero is `⌊x + 1/2⌋` for the non-negative inputs the
mock generator produces (and JavaScript itself rounds half toward +∞). -/
def jsRound (q : ℚ) : ℤ := ⌊q + 1/2⌋

/-- One batch of `Math.random()` draws, one per mocked weather field, each
drawn uniformly from `[0, 1)`. -/
structure RandomDraws where
  r1 : ℚ
  r2 : ℚ
  r3 : ℚ
  r4 : ℚ
  r5 : ℚ
  r6 : ℚ
deriving DecidableEq, Repr

/-- All six draws lie in the `[0, 1)` range `Math.random()` guarantees. -/
def validDraws (r : RandomDraws) : Prop :=
  (0 ≤ r.r1 ∧ r.r1 < 1) ∧ (0 ≤ r.r2 ∧ r.r2 < 1) ∧ (0 ≤ r.r3 ∧ r.r3 < 1) ∧
  (0 ≤ r.r4 ∧ r.r4 < 1) ∧ (0 ≤ r.r5 ∧ r.r5 < 1) ∧ (0 ≤ r.r6 ∧ r.r6 < 1)

/-- The weather `Reading` assembled by `EnvironmentalService.getWeatherData`
(`src/app.js`): six numeric fields. -/
structure WeatherReading where
  temperature : ℚ
  humidity : ℚ
  pressure : ℚ
  windSpeed : ℚ
  visibility : ℚ
  uvIndex : ℚ
deriving DecidableEq, Repr

/-- Body of a successful (2xx) OpenWeatherMap response as read by
`getWeatherData`: `data.main.temp` / `.humidity` / `.pressure`, optional
`data.wind.speed` (m/s) and optional `data.visibility` (metres). -/
structure ApiData where
  temp : ℚ
  humidity : ℚ
  pressure : ℚ
  windSpeed : Option ℚ
  visibility : Option ℚ
deriving DecidableEq, Repr

/-- How the attempted live weather call ends: `fetch` missing from the
runtime, a non-2xx response, a thrown network error, or a parsed 2xx body. -/
inductive FetchOutcome where
  | fetchUnavailable
  | httpError
  | networkError
  | success (data : ApiData)
deriving DecidableEq, Repr

/-- Model of `EnvironmentalService.getMockWeatherData` (`src/app.js` lines 119–128):
each field is `Math.round(base + Math.random() * span)`. -/
def getMockWeatherData (r : RandomDraws) : WeatherReading :=
  { temperature := jsRound (15 + r.r1 * 20)
    humidity := jsRound (40 + r.r2 * 40)
    pressure := jsRound (1000 + r.r3 * 50)
    windSpeed := jsRound (r.r4 * 25)
    visibility := jsRound (5 + r.r5 * 15)
    uvIndex := jsRound (r.r6 * 11) }

/-- Model of `EnvironmentalService.getWeatherData` (`src/app.js` lines 46–106).  The
configured key is compared against the literal placeholder
`'your_actual_api_key_here'`; a placeholder key, a runtime without `fetch`,
a non-2xx response, and a thrown network error all fall back to the mock
generator instead of propagating the failure.  On a 2xx response the body is
repackaged: temperature rounded, humidity and pressure raw, wind speed
converted m/s → km/h with `|| 0` for a missing value, visibility in km with
default 10000 m, UV index fixed at 0. -/
def getWeatherData (weatherApiKey : String) (outcome : FetchOutcome)
    (r : RandomDraws) : WeatherReading :=
  if weatherApiKey = "your_actual_api_key_here" then getMockWeatherData r
  else
    match outcome with
    | .fetchUnavailable => getMockWeatherData r
    | .httpError => getMockWeatherData r
    | .networkError => getMockWeatherData r
    | .success d =>
        { temperature := jsRound d.temp
          humidity := d.humidity
          pressure := d.pressure
          windSpeed :=
            match d.windSpeed with
            | some s => jsRound (s * (36/10))
            | none => 0
          visibility :=
            jsRound ((match d.visibility with
              | some v => if v ≠ 0 then v else 10000
              | none => (10000 : ℚ)) / 1000)
          uvIndex := 0 }

/-- The fixed synthetic ranges of the mock generator: temperature 15–35 °C,
humidity 40–80 %, pressure 1000–1050 hPa, wind 0–25 km/h, visibility
5–20 km, UV index 0–11. -/
def readingInMockRanges (w : WeatherReading) : Prop :=
  15 ≤ w.temperature ∧ w.temperature ≤ 35 ∧
  40 ≤ w.humidity ∧ w.humidity ≤ 80 ∧
  1000 ≤ w.pressure ∧ w.pressure ≤ 1050 ∧
  0 ≤ w.windSpeed ∧ w.windSpeed ≤ 25 ∧
  5 ≤ w.visibility ∧ w.visibility ≤ 20 ∧
  0 ≤ w.uvIndex ∧ w.uvIndex ≤ 11

/-- Model of `toRad(degrees)` of the client tracker (part_004): degrees → radians. -/
noncomputable def toRad (degrees : ℝ) : ℝ := degrees * (Real.pi / 180)

/-- JavaScript `Math.atan2(y, x)` for finite arguments. -/
noncomputable def atan2 (y x : ℝ) : ℝ :=
  if 0 < x then Real.arctan (y / x)
  else if x < 0 ∧ 0 ≤ y then Real.arctan (y / x) + Real.pi
  else if x < 0 ∧ y < 0 then Real.arctan (y / x) - Real.pi
  else if x = 0 ∧ 0 < y then Real.pi / 2
  else if x = 0 ∧ y < 0 then -(Real.pi / 2)
  else 0

/-- The intermediate haversine quantity `a` of `calculateDistance`
(part_004 lines 644–657), with positions as (latitude, longitude) pairs in
degrees. -/
noncomputable def haversineA (pos1 pos2 : ℝ × ℝ) : ℝ :=
  let dLat := toRad (pos2.1 - pos1.1)
  let dLng := toRad (pos2.2 - pos1.2)
  Real.sin (dLat/2) * Real.sin (dLat/2) +
    Real.cos (toRad pos1.1) * Real.cos (toRad pos2.1) *
    Real.sin (dLng/2) * Real.sin (dLng/2)

/-- Model of `calculateDistance(pos1, pos2)` (part_004 lines 644–657): great-circle
distance via the haversine formula, Earth radius 6371 km,
`c = 2 * atan2(sqrt(a), sqrt(1 - a))`. -/
noncomputable def calculateDistance (pos1 pos2 : ℝ × ℝ) : ℝ :=
  let R : ℝ := 6371
  let a := haversineA pos1 pos2
  let c := 2 * atan2 (Real.sqrt a) (Real.sqrt (1 - a))
  R * c

section UpdateStepLemmas

variable (a : UserAnalytics) (l : LocationData)

lemma update_totalLocationUpdates :
    (updateUserAnalytics a l).totalLocationUpdates =
      a.totalLocationUpdates + 1 := by
  unfold updateUserAnalytics
  rcases l.speed with _ | s <;> dsimp only <;> split_ifs <;> rfl

lemma update_maxSpeed :
    (updateUserAnalytics a l).maxSpeed = maxSpeedStep a.maxSpeed l.speed := by
  unfold updateUserAnalytics maxSpeedStep
  rcases l.speed with _ | s <;> dsimp only <;> split_ifs <;> rfl

lemma update_endLocation :
    (updateUserAnalytics a l).endLocation = some ⟨l.latitude, l.longitude⟩ :=
  rfl

lemma update_startLocation :
    (updateUserAnalytics a l).startLocation =
      if a.totalLocationUpdates = 0 then some ⟨l.latitude, l.longitude⟩
      else a.startLocation := by
  unfold updateUserAnalytics
  rcases l.speed with _ | s <;> dsimp only <;> split_ifs with h1 h2 h3 <;>
    simp_all

lemma update_totalDistance :
    (updateUserAnalytics a l).totalDistance = a.totalDistance := by
  unfold updateUserAnalytics
  rcases l.speed with _ | s <;> dsimp only <;> split_ifs <;> rfl

lemma update_averageSpeed :
    (updateUserAnalytics a l).averageSpeed = a.averageSpeed := by
  unfold updateUserAnalytics
  rcases l.speed with _ | s <;> dsimp only <;> split_ifs <;> rfl

lemma update_trackingDuration :
    (updateUserAnalytics a l).trackingDuration = a.trackingDuration := by
  unfold updateUserAnalytics
  rcases l.speed with _ | s <;> dsimp only <;> split_ifs <;> rfl

lemma update_featuresUsed :
    (updateUserAnalytics a l).featuresUsed = a.featuresUsed := by
  unfold updateUserAnalytics
  rcases l.speed with _ | s <;> dsimp only <;> split_ifs <;> rfl

lemma update_sessionId :
    (updateUserAnalytics a l).sessionId = a.sessionId := by
  unfold updateUserAnalytics
  rcases l.speed with _ | s <;> dsimp only <;> split_ifs <;> rfl

end UpdateStepLemmas

lemma applyUpdates_cons (a : UserAnalytics) (l : LocationData)
    (ls : List LocationData) :
    applyUpdates a (l :: ls) = applyUpdates (updateUserAnalytics a l) ls := rfl

lemma applyUpdates_totalLocationUpdates (locs : List LocationData) :
    ∀ a : UserAnalytics,
      (applyUpdates a locs).totalLocationUpdates =
        a.totalLocationUpdates + locs.length := by
  induction locs with
  | nil => intro a; simp [applyUpdates]
  | cons l ls ih =>
      intro a
      rw [applyUpdates_cons, ih, update_totalLocationUpdates]
      simp; omega

lemma applyUpdates_totalDistance (locs : List LocationData) :
    ∀ a : UserAnalytics,
      (applyUpdates a locs).totalDistance = a.totalDistance := by
  induction locs with
  | nil => intro a; simp [applyUpdates]
  | cons l ls ih => intro a; rw [applyUpdates_cons, ih, update_totalDistance]

lemma applyUpdates_averageSpeed (locs : List LocationData) :
    ∀ a : UserAnalytics,
      (applyUpdates a locs).averageSpeed = a.averageSpeed := by
  induction locs with
  | nil => intro a; simp [applyUpdates]
  | cons l ls ih => intro a; rw [applyUpdates_cons, ih, update_averageSpeed]

lemma applyUpdates_trackingDuration (locs : List LocationData) :
    ∀ a : UserAnalytics,
      (applyUpdates a locs).trackingDuration = a.trackingDuration := by
  induction locs with
  | nil => intro a; simp [applyUpdates]
  | cons l ls ih => intro a; rw [applyUpdates_cons, ih, update_trackingDuration]

lemma applyUpdates_featuresUsed (locs : List LocationData) :
    ∀ a : UserAnalytics,
      (applyUpdates a locs).featuresUsed = a.featuresUsed := by
  induction locs with
  | nil => intro a; simp [applyUpdates]
  | cons l ls ih => intro a; rw [applyUpdates_cons, ih, update_featuresUsed]

lemma applyUpdates_endLocation (locs : List LocationData) (h : locs ≠ []) :
    ∀ a : UserAnalytics,
      (applyUpdates a locs).endLocation =
        some ⟨(locs.getLast h).latitude, (locs.getLast h).longitude⟩ := by
  induction locs with
  | nil => exact absurd rfl h
  | cons l ls ih =>
      intro a
      cases ls with
      | nil => simp [applyUpdates, update_endLocation]
      | cons l2 ls2 =>
          have hgl : (l :: l2 :: ls2).getLast h =
              (l2 :: ls2).getLast (by simp) := List.getLast_cons (by simp)
          rw [applyUpdates_cons, ih (by simp), hgl]

lemma applyUpdates_startLocation_of_pos (locs : List LocationData) :
    ∀ a : UserAnalytics, 1 ≤ a.totalLocationUpdates →
      (applyUpdates a locs).startLocation = a.startLocation := by
  induction locs with
  | nil => intro a _; simp [applyUpdates]
  | cons l ls ih =>
      intro a ha
      rw [applyUpdates_cons, ih]
      · rw [update_startLocation, if_neg (by omega)]
      · rw [update_totalLocationUpdates]; omega

lemma beginsWith_map_toLower {pat s : List Char}
    (h : beginsWith pat s = true) :
    beginsWith (pat.map Char.toLower) (s.map Char.toLower) = true := by
  induction pat generalizing s with
  | nil => simp [beginsWith]
  | cons c cs ih =>
      cases s with
      | nil => simp [beginsWith] at h
      | cons d ds =>
          simp only [beginsWith, Bool.and_eq_true, beq_iff_eq] at h
          simp only [List.map_cons, beginsWith, Bool.and_eq_true, beq_iff_eq]
          exact ⟨by rw [h.1], ih h.2⟩

lemma containsSeq_map_toLower {pat s : List Char}
    (h : containsSeq pat s = true) :
    containsSeq (pat.map Char.toLower) (s.map Char.toLower) = true := by
  induction s with
  | nil => cases pat <;> simp_all [containsSeq, beginsWith]
  | cons d ds ih =>
      simp only [containsSeq, Bool.or_eq_true] at h
      simp only [List.map_cons, containsSeq, Bool.or_eq_true]
      rcases h with h | h
      · exact Or.inl (by simpa using beginsWith_map_toLower h)
      · exact Or.inr (ih h)

/-- Claim C5 (corrected), counterexample to the claim as stated: the identity
string `"Linux; Android Chrome"` contains both `"Android"` and `"Chrome"`,
yet `parseUserAgent` resolves its platform to `"Linux"`, not `"Android"`,
because the platform chain tests `"Windows"`, `"Mac"` and `"Linux"` before
`"Android"` and the first match wins. -/
theorem claim5_counterexample :
    containsSeq "Android".toList ("Linux; Android Chrome".toList) = true ∧
    containsSeq "Chrome".toList ("Linux; Android Chrome".toList) = true ∧
    (parseUserAgent ("Linux; Android Chrome".toList)).map DeviceInfo.platform
        = some "Linux" ∧
    ("Linux" : String) ≠ "Android" := by
  decide

/-- Claim C5 (corrected, amended).  For every identity string that contains
`"Android"` and `"Chrome"` and contains none of the higher-priority platform
markers `"Windows"`, `"Mac"`, `"Linux"`, `parseUserAgent` resolves
platform = `"Android"`, browser = `"Chrome"` and mobile = `true`. -/
theorem claim5_android_chrome_parse (ua : List Char)
    (hA : containsSeq "Android".toList ua = true)
    (hC : containsSeq "Chrome".toList ua = true)
    (hW : containsSeq "Windows".toList ua = false)
    (hM : containsSeq "Mac".toList ua = false)
    (hL : containsSeq "Linux".toList ua = false) :
    ∃ d, parseUserAgent ua = some d ∧ d.platform = "Android" ∧
      d.browser = "Chrome" ∧ d.mobile = true := by
  have hne : ua ≠ [] := by
    intro h; subst h; exact absurd hA (by decide)
  have hmob : mobileTest ua = true := by
    have h2 := containsSeq_map_toLower hA
    unfold mobileTest lowerStr
    simp at h2 ⊢
    tauto
  have hrec : parseUserAgent ua =
      some { browser := "Chrome", platform := "Android", mobile := true,
             userAgent := ua.take 200 } := by
    unfold parseUserAgent
    rw [if_neg hne]
    simp only [hA, hC, hW, hM, hL, hmob]
    simp
  exact ⟨_, hrec, rfl, rfl, rfl⟩

/-- Witness for C5 (amended): the identity string `"Android Chrome"`. -/
theorem claim5_witness :
    ∃ d, parseUserAgent ("Android Chrome".toList) = some d ∧
      d.platform = "Android" ∧ d.browser = "Chrome" ∧ d.mobile = true :=
  claim5_android_chrome_parse _ (by decide) (by decide) (by decide)
    (by decide) (by decide)

/-- Claim C10 (confirmed).  A falsy identity string parses to the empty
object; a non-empty one always parses to a full `DeviceInfo` whose
`userAgent` copy is truncated to 200 characters, whose mobile flag is the
case-insensitive marker test, and whose browser/platform default to
`"Unknown"` exactly when none of the respective substrings occurs. -/
theorem claim10_parse_shape (ua : List Char) :
    parseUserAgent [] = none ∧
    (ua ≠ [] →
      ∃ d, parseUserAgent ua = some d ∧ d.userAgent = ua.take 200 ∧
        d.mobile = mobileTest ua ∧
        (containsSeq "Chrome".toList ua = false →
         containsSeq "Firefox".toList ua = false →
         containsSeq "Safari".toList ua = false →
         containsSeq "Edge".toList ua = false → d.browser = "Unknown") ∧
        (containsSeq "Windows".toList ua = false →
         containsSeq "Mac".toList ua = false →
         containsSeq "Linux".toList ua = false →
         containsSeq "Android".toList ua = false →
         containsSeq "iPhone".toList ua = false →
         containsSeq "iPad".toList ua = false → d.platform = "Unknown")) := by
  refine ⟨rfl, fun hne => ?_⟩
  unfold parseUserAgent
  rw [if_neg hne]
  refine ⟨_, rfl, rfl, rfl, ?_, ?_⟩
  · intro h1 h2 h3 h4
    simp at h1 h2 h3 h4
    simp [h1, h2, h3, h4]
  · intro h1 h2 h3 h4 h5 h6
    simp at h1 h2 h3 h4 h5 h6
    simp [h1, h2, h3, h4, h5, h6]

/-- Witness for C10: the one-character identity string `"x"`, which matches
no browser or platform substring. -/
theorem claim10_witness :
    parseUserAgent [] = none ∧
    ∃ d, parseUserAgent ("x".toList) = some d ∧
      d.userAgent = ("x".toList).take 200 ∧
      d.mobile = mobileTest ("x".toList) ∧
      d.browser = "Unknown" ∧ d.platform = "Unknown" := by
  obtain ⟨h0, h⟩ := claim10_parse_shape ("x".toList)
  obtain ⟨d, hd, hua, hm, hb, hp⟩ := h (by decide)
  exact ⟨h0, d, hd, hua, hm,
    hb (by decide) (by decide) (by decide) (by decide),
    hp (by decide) (by decide) (by decide) (by decide) (by decide)
      (by decide)⟩

/-- Claim C1 (`code_bug`).  Evaluation of `updateUserAnalytics` at the failing
input: two updates with reported speeds 10 m/s and then 20 m/s.  The spec
claims the stored `maxSpeed` afterwards equals the maximum of the converted
speeds, `max 36 72 = 72` km/h, but the code compares the raw 20 m/s against
the already-converted stored 36 km/h (`locationData.speed >
analytics.maxSpeed`), the test fails, and `maxSpeed` stays at 36 km/h. -/
theorem claim1_maxSpeed_unit_mismatch :
    (applyUpdates (createUserAnalytics "s")
        [{ latitude := 1, longitude := 2, speed := some 10 },
         { latitude := 1, longitude := 2, speed := some 20 }]).maxSpeed = 36 ∧
    max ((10 : ℚ) * (36/10)) ((20 : ℚ) * (36/10)) = 72 ∧ (36 : ℚ) ≠ 72 := by
  refine ⟨?_, by norm_num, by norm_num⟩
  norm_num [applyUpdates, updateUserAnalytics, createUserAnalytics]

/-- Claim C2 (confirmed).  Starting from an analytics document whose update
counter is zero (as created by `createUserAnalytics`), after a non-empty
sequence of location updates: the counter equals the number of updates, the
end location is the last update's coordinates, the start location is the
first update's coordinates, and `totalDistance`, `averageSpeed`,
`trackingDuration` and the `featuresUsed` flags are unchanged. -/
theorem claim2_counter_endpoints_frame (a0 : UserAnalytics)
    (locs : List LocationData) (h0 : a0.totalLocationUpdates = 0)
    (hne : locs ≠ []) :
    (applyUpdates a0 locs).totalLocationUpdates = locs.length ∧
    (applyUpdates a0 locs).endLocation =
      some ⟨(locs.getLast hne).latitude, (locs.getLast hne).longitude⟩ ∧
    (applyUpdates a0 locs).startLocation =
      some ⟨(locs.head hne).latitude, (locs.head hne).longitude⟩ ∧
    (applyUpdates a0 locs).totalDistance = a0.totalDistance ∧
    (applyUpdates a0 locs).averageSpeed = a0.averageSpeed ∧
    (applyUpdates a0 locs).trackingDuration = a0.trackingDuration ∧
    (applyUpdates a0 locs).featuresUsed = a0.featuresUsed := by
  refine ⟨?_, applyUpdates_endLocation locs hne a0, ?_,
    applyUpdates_totalDistance locs a0, applyUpdates_averageSpeed locs a0,
    applyUpdates_trackingDuration locs a0, applyUpdates_featuresUsed locs a0⟩
  · rw [applyUpdates_totalLocationUpdates, h0, Nat.zero_add]
  · cases locs with
    | nil => exact absurd rfl hne
    | cons l ls =>
        rw [applyUpdates_cons, applyUpdates_startLocation_of_pos]
        · rw [update_startLocation, if_pos h0]; rfl
        · rw [update_totalLocationUpdates]; omega

/-- Closed-form witness for C2: a single update at `(1, 2)` applied to the
freshly created analytics record. -/
theorem claim2_witness :
    (applyUpdates (createUserAnalytics "s")
        [{ latitude := 1, longitude := 2 }]).totalLocationUpdates = 1 ∧
    (applyUpdates (createUserAnalytics "s")
        [{ latitude := 1, longitude := 2 }]).endLocation = some ⟨1, 2⟩ ∧
    (applyUpdates (createUserAnalytics "s")
        [{ latitude := 1, longitude := 2 }]).startLocation = some ⟨1, 2⟩ ∧
    (applyUpdates (createUserAnalytics "s")
        [{ latitude := 1, longitude := 2 }]).totalDistance =
      (createUserAnalytics "s").totalDistance ∧
    (applyUpdates (createUserAnalytics "s")
        [{ latitude := 1, longitude := 2 }]).averageSpeed =
      (createUserAnalytics "s").averageSpeed ∧
    (applyUpdates (createUserAnalytics "s")
        [{ latitude := 1, longitude := 2 }]).trackingDuration =
      (createUserAnalytics "s").trackingDuration ∧
    (applyUpdates (createUserAnalytics "s")
        [{ latitude := 1, longitude := 2 }]).featuresUsed =
      (createUserAnalytics "s").featuresUsed := by
  have h := claim2_counter_endpoints_frame (createUserAnalytics "s")
    [{ latitude := 1, longitude := 2 }] rfl (by simp)
  simpa using h

lemma exists_key_condMap {α : Type} (key : α → String) (xs : List α)
    (c : α → Bool) (f : α → α) (hf : ∀ x, key (f x) = key x) (sid : String) :
    (∃ x ∈ xs.map (fun x => if c x then f x else x), key x = sid) ↔
      ∃ x ∈ xs, key x = sid := by
  simp only [List.mem_map]
  constructor
  · rintro ⟨x, ⟨s, hs, rfl⟩, hid⟩
    refine ⟨s, hs, ?_⟩
    cases hc : c s
    · simpa [hc] using hid
    · rw [← hf s]; simpa [hc] using hid
  · rintro ⟨s, hs, hid⟩
    refine ⟨_, ⟨s, hs, rfl⟩, ?_⟩
    cases hc : c s <;> simp [hc, hf s, hid]

lemma invariant_applyOp (st : DBState)
    (h : ∀ sid, hasSession st sid ↔ hasAnalytics st sid) (op : Op) :
    ∀ sid, hasSession (applyOp st op) sid ↔ hasAnalytics (applyOp st op) sid := by
  intro sid
  cases op with
  | openSession sessionId socketId ua ip now =>
      simp only [applyOp, createUserSession, hasSession, hasAnalytics,
        List.mem_append, List.mem_singleton] at *
      constructor
      · rintro ⟨s, hs | rfl, hid⟩
        · obtain ⟨a, ha, haid⟩ := (h sid).1 ⟨s, hs, hid⟩
          exact ⟨a, Or.inl ha, haid⟩
        · exact ⟨createUserAnalytics sessionId, Or.inr rfl, hid⟩
      · rintro ⟨a, ha | rfl, hid⟩
        · obtain ⟨s, hs, hsid⟩ := (h sid).2 ⟨a, ha, hid⟩
          exact ⟨s, Or.inl hs, hsid⟩
        · refine ⟨_, Or.inr rfl, ?_⟩
          exact hid
  | closeSession socketId now =>
      simp only [applyOp]
      unfold endUserSession
      cases hf : findActiveSession st.sessions socketId with
      | none => exact h sid
      | some sess =>
          dsimp only
          unfold hasSession hasAnalytics saveSessionById
          dsimp only
          rw [exists_key_condMap SessionRec.sessionId st.sessions
                (fun s => s.sessionId == sess.sessionId) (closeSessionRec now)
                (fun s => rfl) sid]
          exact h sid
  | recordLocation socketId loc env =>
      simp only [applyOp]
      unfold logLocationData
      cases hf : findActiveSession st.sessions socketId with
      | none => exact h sid
      | some sess =>
          dsimp only
          unfold hasSession hasAnalytics saveAnalyticsById
          dsimp only
          rw [exists_key_condMap UserAnalytics.sessionId st.analytics _ _
                (fun a => update_sessionId a loc) sid]
          exact h sid
  | featureToggle socketId feature =>
      simp only [applyOp]
      unfold logFeatureUsage
      cases hf : findActiveSession st.sessions socketId with
      | none => exact h sid
      | some sess =>
          dsimp only
          unfold hasSession hasAnalytics saveAnalyticsById
          dsimp only
          rw [exists_key_condMap UserAnalytics.sessionId st.analytics
                (fun a => a.sessionId == sess.sessionId)
                (fun a =>
                  { a with featuresUsed := setFeature a.featuresUsed feature })
                (fun a => rfl) sid]
          exact h sid

/-- Claim C3 (confirmed).  In every store state reachable by any sequence of
session-open, session-close, location-record and feature-toggle operations
from the empty store, a `UserAnalytics` document exists for an identifier
iff a `UserSession` document exists for it: `createUserSession` creates the
pair together, and no other operation creates or deletes either document —
they only rewrite existing documents in place, preserving identifiers. -/
theorem claim3_analytics_iff_session (ops : List Op) (sid : String) :
    hasSession (runOps ops) sid ↔ hasAnalytics (runOps ops) sid := by
  suffices h : ∀ st : DBState, (∀ k, hasSession st k ↔ hasAnalytics st k) →
      ∀ k, hasSession (ops.foldl applyOp st) k ↔
        hasAnalytics (ops.foldl applyOp st) k by
    refine h emptyState ?_ sid
    intro k
    simp [hasSession, hasAnalytics, emptyState]
  induction ops with
  | nil => intro st h k; exact h k
  | cons op rest ih =>
      intro st h k
      exact ih (applyOp st op) (fun k2 => invariant_applyOp st h op k2) k

/-- Claim C6 (confirmed).  Closing a channel with an active session rewrites
exactly that session document in one write — disconnection time = now,
duration = `⌊(now − connectionTime) / 1000⌋` whole seconds, active = false —
and leaves analytics, locations, and all other sessions untouched; closing a
channel without an active session (never opened, or already closed) is a
complete no-op and raises no error. -/
theorem claim6_close_session (st : DBState) (socketId : String) (now : ℤ) :
    (findActiveSession st.sessions socketId = none →
      endUserSession socketId now st = st) ∧
    (∀ sess, findActiveSession st.sessions socketId = some sess →
      (endUserSession socketId now st).analytics = st.analytics ∧
      (endUserSession socketId now st).locations = st.locations ∧
      (endUserSession socketId now st).sessions =
        st.sessions.map (fun s =>
          if s.sessionId == sess.sessionId then
            { s with disconnectionTime := some now,
                     sessionDuration :=
                       some (Int.fdiv (now - s.connectionTime) 1000),
                     isActive := false }
          else s)) := by
  constructor
  · intro h
    unfold endUserSession
    rw [h]
  · intro sess h
    unfold endUserSession
    rw [h]
    exact ⟨rfl, rfl, rfl⟩

/-- Witness for C6: closing `"sockB"` (no session) is a no-op on the
one-session store, and closing `"sockA"` at time 5000 ms closes session
`"s1"` with a 5-second duration. -/
theorem claim6_witness :
    endUserSession "sockB" 5000 sampleState = sampleState ∧
    (endUserSession "sockA" 5000 sampleState).analytics =
      sampleState.analytics ∧
    (endUserSession "sockA" 5000 sampleState).locations =
      sampleState.locations ∧
    (endUserSession "sockA" 5000 sampleState).sessions =
      sampleState.sessions.map (fun s =>
        if s.sessionId == "s1" then
          { s with disconnectionTime := some 5000,
                   sessionDuration :=
                     some (Int.fdiv (5000 - s.connectionTime) 1000),
                   isActive := false }
        else s) := by
  have h1 := (claim6_close_session sampleState "sockB" 5000).1 (by decide)
  obtain ⟨ha, hl, hs⟩ := (claim6_close_session sampleState "sockA" 5000).2
    { sessionId := "s1", socketId := "sockA", userAgent := [],
      ipAddress := "ip", deviceInfo := none, connectionTime := 0,
      disconnectionTime := none, sessionDuration := none, isActive := true }
    (by decide)
  exact ⟨h1, ha, hl, hs⟩

/-- Claim C7 (confirmed).  A location update for a channel with no active
session is dropped silently: no `LocationTracking` document is created, no
analytics document changes, the whole store state is untouched, and no error
reaches the caller. -/
theorem claim7_drop_without_session (st : DBState) (socketId : String)
    (loc : LocationData) (env : EnvData)
    (h : findActiveSession st.sessions socketId = none) :
    logLocationData socketId loc env st = st := by
  unfold logLocationData
  rw [h]

/-- Witness for C7: a location update against the empty store. -/
theorem claim7_witness :
    logLocationData "sockA" { latitude := 1, longitude := 2 } {} emptyState =
      emptyState :=
  claim7_drop_without_session emptyState "sockA"
    { latitude := 1, longitude := 2 } {} rfl

/-- Claim C9 (confirmed).  Toggling a feature name outside the fixed flag set
`satelliteView` / `trailMode` / `speedMode` leaves the whole store — in
particular every analytics document — unchanged and raises no error, while
each name inside the set sets exactly that boolean flag to true. -/
theorem claim9_feature_flags (st : DBState) (socketId feature : String)
    (fl : FeaturesUsed)
    (h1 : feature ≠ "satelliteView") (h2 : feature ≠ "trailMode")
    (h3 : feature ≠ "speedMode") :
    logFeatureUsage socketId feature st = st ∧
    (setFeature fl "satelliteView").satelliteView = true ∧
    (setFeature fl "trailMode").trailMode = true ∧
    (setFeature fl "speedMode").speedMode = true := by
  refine ⟨?_, by simp [setFeature], by simp [setFeature], by simp [setFeature]⟩
  unfold logFeatureUsage
  cases hf : findActiveSession st.sessions socketId with
  | none => rfl
  | some sess =>
      dsimp only
      have hid : ∀ a : UserAnalytics,
          { a with featuresUsed := setFeature a.featuresUsed feature } = a := by
        intro a
        have hset : setFeature a.featuresUsed feature = a.featuresUsed := by
          simp [setFeature, h1, h2, h3]
        rw [hset]
      have hsave : saveAnalyticsById st.analytics sess.sessionId
          (fun a => { a with featuresUsed := setFeature a.featuresUsed feature })
            = st.analytics := by
        unfold saveAnalyticsById
        have hmap : (fun a : UserAnalytics =>
            if a.sessionId == sess.sessionId then
              { a with featuresUsed := setFeature a.featuresUsed feature }
            else a) = id := by
          funext a
          rw [hid a, ite_self]
          rfl
        rw [hmap, List.map_id]
      rw [hsave]

/-- Witness for C9: the unknown feature name `"zoom"` on the one-session
store, and the three known flags on the all-false flag record. -/
theorem claim9_witness :
    logFeatureUsage "sockA" "zoom" sampleState = sampleState ∧
    (setFeature {} "satelliteView").satelliteView = true ∧
    (setFeature {} "trailMode").trailMode = true ∧
    (setFeature {} "speedMode").speedMode = true :=
  claim9_feature_flags sampleState "sockA" "zoom" {}
    (by decide) (by decide) (by decide)

lemma jsRound_bounds {lo hi : ℤ} {q : ℚ} (h1 : (lo : ℚ) ≤ q)
    (h2 : q < (hi : ℚ)) : lo ≤ jsRound q ∧ jsRound q ≤ hi := by
  unfold jsRound
  constructor
  · refine Int.le_floor.mpr ?_
    linarith
  · have hlt : ⌊q + 1/2⌋ < hi + 1 := by
      refine Int.floor_lt.mpr ?_
      push_cast
      linarith
    omega

lemma jsRound_cast_bounds {lo hi : ℤ} {q : ℚ} (h1 : (lo : ℚ) ≤ q)
    (h2 : q < (hi : ℚ)) :
    (lo : ℚ) ≤ (jsRound q : ℚ) ∧ (jsRound q : ℚ) ≤ (hi : ℚ) := by
  obtain ⟨ha, hb⟩ := jsRound_bounds h1 h2
  exact ⟨by exact_mod_cast ha, by exact_mod_cast hb⟩

/-- Claim C8 (confirmed).  Whenever the configured key is the mock-guard
placeholder or the live weather call does not succeed (missing `fetch`,
non-2xx status, network error), `getWeatherData` returns exactly the
synthetic mock reading, and — for any `Math.random()` draws in `[0,1)` —
that reading lies inside all six fixed mock ranges.  In particular the
fallback is total: no failure propagates to the caller. -/
theorem claim8_mock_fallback (weatherApiKey : String) (outcome : FetchOutcome)
    (r : RandomDraws) (hr : validDraws r)
    (hfail : weatherApiKey = "your_actual_api_key_here" ∨
      ∀ d, outcome ≠ FetchOutcome.success d) :
    getWeatherData weatherApiKey outcome r = getMockWeatherData r ∧
    readingInMockRanges (getWeatherData weatherApiKey outcome r) := by
  have hmock : getWeatherData weatherApiKey outcome r = getMockWeatherData r := by
    unfold getWeatherData
    rcases hfail with hk | ho
    · rw [if_pos hk]
    · split_ifs with h
      · rfl
      · cases outcome with
        | success d => exact absurd rfl (ho d)
        | fetchUnavailable => rfl
        | httpError => rfl
        | networkError => rfl
  refine ⟨hmock, ?_⟩
  rw [hmock]
  obtain ⟨⟨h1a, h1b⟩, ⟨h2a, h2b⟩, ⟨h3a, h3b⟩, ⟨h4a, h4b⟩, ⟨h5a, h5b⟩,
    h6a, h6b⟩ := hr
  have t1 := @jsRound_cast_bounds 15 35 (15 + r.r1 * 20)
    (by push_cast; linarith) (by push_cast; linarith)
  have t2 := @jsRound_cast_bounds 40 80 (40 + r.r2 * 40)
    (by push_cast; linarith) (by push_cast; linarith)
  have t3 := @jsRound_cast_bounds 1000 1050 (1000 + r.r3 * 50)
    (by push_cast; linarith) (by push_cast; linarith)
  have t4 := @jsRound_cast_bounds 0 25 (r.r4 * 25)
    (by have h : (0 : ℚ) ≤ r.r4 * 25 := by linarith
        exact_mod_cast h)
    (by push_cast; linarith)
  have t5 := @jsRound_cast_bounds 5 20 (5 + r.r5 * 15)
    (by push_cast; linarith) (by push_cast; linarith)
  have t6 := @jsRound_cast_bounds 0 11 (r.r6 * 11)
    (by have h : (0 : ℚ) ≤ r.r6 * 11 := by linarith
        exact_mod_cast h)
    (by push_cast; linarith)
  unfold readingInMockRanges getMockWeatherData
  dsimp only
  refine ⟨?_, ?_, ?_, ?_, ?_, ?_, ?_, ?_, ?_, ?_, ?_, ?_⟩
  · exact_mod_cast t1.1
  · exact_mod_cast t1.2
  · exact_mod_cast t2.1
  · exact_mod_cast t2.2
  · exact_mod_cast t3.1
  · exact_mod_cast t3.2
  · exact_mod_cast t4.1
  · exact_mod_cast t4.2
  · exact_mod_cast t5.1
  · exact_mod_cast t5.2
  · exact_mod_cast t6.1
  · exact_mod_cast t6.2

/-- Witness for C8: the placeholder key with a failed network call and all
six draws equal to 1/2. -/
theorem claim8_witness :
    getWeatherData "your_actual_api_key_here" FetchOutcome.networkError
        ⟨1/2, 1/2, 1/2, 1/2, 1/2, 1/2⟩ =
      getMockWeatherData ⟨1/2, 1/2, 1/2, 1/2, 1/2, 1/2⟩ ∧
    readingInMockRanges
      (getWeatherData "your_actual_api_key_here" FetchOutcome.networkError
        ⟨1/2, 1/2, 1/2, 1/2, 1/2, 1/2⟩) :=
  claim8_mock_fallback "your_actual_api_key_here" FetchOutcome.networkError
    ⟨1/2, 1/2, 1/2, 1/2, 1/2, 1/2⟩ (by norm_num [validDraws]) (Or.inl rfl)

/-- Claim C4 (confirmed).  The pure haversine `calculateDistance` is symmetric
in its two coordinate pairs and vanishes on equal pairs — exactly, over the
reals that model the JavaScript floating-point arithmetic. -/
theorem claim4_distance_symm_zero (a b : ℝ × ℝ) :
    calculateDistance a b = calculateDistance b a ∧
    calculateDistance a a = 0 := by
  constructor
  · have hA : haversineA a b = haversineA b a := by
      unfold haversineA toRad
      dsimp only
      have h1 : (a.1 - b.1) * (Real.pi / 180) / 2 =
          -((b.1 - a.1) * (Real.pi / 180) / 2) := by ring
      have h2 : (a.2 - b.2) * (Real.pi / 180) / 2 =
          -((b.2 - a.2) * (Real.pi / 180) / 2) := by ring
      rw [h1, h2, Real.sin_neg, Real.sin_neg]
      ring
    unfold calculateDistance
    rw [hA]
  · have hA : haversineA a a = 0 := by
      unfold haversineA toRad
      simp
    unfold calculateDistance
    dsimp only
    rw [hA, Real.sqrt_zero, sub_zero, Real.sqrt_one]
    unfold atan2
    rw [if_pos one_pos]
    simp

end LiveTracking
